import Mathlib

/-!
Verification of `meas_algorithms` (dynamic-threshold source detection and the
reference-catalog unit-conversion utility) against its natural-language
specification.

The development shallowly embeds the Python sources:

* `src/bin.src/convert_refcat_to_nJy.py` — schema renaming/unit scaling of
  reference catalogs (`pyStrip`, `is_flux_field`, `mapField`, `processOneWrite`);
* `src/python/lsst/meas/algorithms/dynamicDetection.py` — the threshold
  estimator (`calculateThresholdEstimate` over rational-valued photometry
  records), the sky-catalog construction with its single-peak assertion
  (`buildSkyCatalog`), and the two-pass detection orchestrator
  (`detectFootprintsRun`) with its collaborators abstracted as parameters.

Floating-point values are idealised as rationals; machine integers as `Int`
with explicit reduction where the source reduces them.
-/

namespace MeasAlgorithms

/-! ## Conversion utility: `convert_refcat_to_nJy.py` -/

/-- Suffix test on strings, computed structurally on the character lists
(`name.endswith(suffix)` in the source). -/
def strEndsWith (s suff : String) : Bool :=
  suff.data.isSuffixOf s.data

/-- The `str.strip chars` method of Python: remove from both ends every
character that occurs in `chars` (a character *set*, not a substring). -/
def pyStrip (s chars : String) : String :=
  let cs := chars.data
  ⟨((s.data.dropWhile (cs.contains ·)).reverse.dropWhile (cs.contains ·)).reverse⟩

/-- The `_fluxSigma` suffix. -/
def fluxSigmaSuffix : String := "_fluxSigma"

/-- The `_fluxErr` suffix. -/
def fluxErrSuffix : String := "_fluxErr"

/-- The `_flux` suffix. -/
def fluxSuffix : String := "_flux"

/-- The renaming the source applies to a `_fluxSigma` field
(line 77: strip the character set `_fluxSigma`, then append `_fluxErr`). -/
def renameFluxSigma (oldName : String) : String :=
  pyStrip oldName fluxSigmaSuffix ++ fluxErrSuffix

/-- Modelled from the spec: the exact trailing-suffix replacement the spec says
implementers should perform instead — replace only the trailing `_fluxSigma`
token with `_fluxErr`. -/
def exactSuffixReplace (oldName : String) : String :=
  ⟨oldName.data.take (oldName.data.length - fluxSigmaSuffix.data.length)⟩ ++ fluxErrSuffix

/-- One column of a reference catalog: field name, units string and the stored
values (floats idealised as rationals). -/
structure RField where
  name : String
  units : String
  values : List ℚ
  deriving DecidableEq, Repr

/-- `is_flux_field` from `process_one` (lines 57–62): name ends in `_flux`,
`_fluxSigma` or `_fluxErr`, and the units are `Jy`, the empty string or `?`. -/
def is_flux_field (name units : String) : Bool :=
  let unitsCheck := units == "Jy" || units == "" || units == "?"
  let isFlux := strEndsWith name fluxSuffix
  let isFluxSigma := strEndsWith name fluxSigmaSuffix
  let isFluxErr := strEndsWith name fluxErrSuffix
  (isFlux || isFluxSigma || isFluxErr) && unitsCheck

/-- The per-field action of the schema mapper loop (lines 69–84): a flux field
gets units `nJy` and, when its name ends in `_fluxSigma`, the strip-based
rename; any other field is copied unchanged. -/
def mapField (f : RField) : RField :=
  if is_flux_field f.name f.units then
    { f with
      name := if strEndsWith f.name fluxSigmaSuffix then renameFluxSigma f.name else f.name
      units := "nJy" }
  else f

/-- The `(oldName, oldUnits)` pairs collected in `mapped_fluxes`. -/
def mappedFluxes (catalog : List RField) : List (String × String) :=
  (catalog.filter (fun f => is_flux_field f.name f.units)).map (fun f => (f.name, f.units))

/-- The scaling loop of the write phase (lines 97–100): any output column whose
name ends in `_flux` or `_fluxErr` has its values multiplied by `1e9`. -/
def scaleField (f : RField) : RField :=
  if strEndsWith f.name fluxSuffix || strEndsWith f.name fluxErrSuffix then
    { f with values := f.values.map (· * 1000000000) }
  else f

/-- The write phase of `process_one` (lines 86–102): `none` when no flux field
was remapped (the file is not written); otherwise the mapped schema with the
`_flux`/`_fluxErr` columns scaled. -/
def processOneWrite (catalog : List RField) : Option (List RField) :=
  if mappedFluxes catalog = [] then none
  else some ((catalog.map mapField).map scaleField)

/-! ## Robust statistics: `np.median` / `np.percentile` over rationals -/

/-- Insert into a sorted list (ascending). -/
def insertQ (a : ℚ) : List ℚ → List ℚ
  | [] => [a]
  | b :: t => if a ≤ b then a :: b :: t else b :: insertQ a t

/-- Ascending sort (insertion sort; only the sorted order matters to the
quantile functions below). -/
def sortQ (l : List ℚ) : List ℚ := l.foldr insertQ []

/-- `np.median`: middle element of the sorted data for odd length, mean of the
two middle elements for even length. -/
def npMedian (l : List ℚ) : ℚ :=
  let s := sortQ l
  let n := l.length
  if n % 2 = 1 then s.getD (n / 2) 0
  else (s.getD (n / 2 - 1) 0 + s.getD (n / 2) 0) / 2

/-- `np.percentile` with the default linear interpolation: the value at sorted
position `(n-1)·q/100`, linearly interpolated between neighbours. -/
def npPercentile (l : List ℚ) (q : ℚ) : ℚ :=
  let s := sortQ l
  let n := l.length
  let pos : ℚ := ((n : ℚ) - 1) * q / 100
  let i : ℕ := ⌊pos⌋.toNat
  let frac : ℚ := pos - (i : ℚ)
  s.getD i 0 + frac * (s.getD (i + 1) 0 - s.getD i 0)

/-! ## Threshold estimator: `DynamicDetectionTask.calculateThreshold`,
lines 121–138 -/

/-- One photometry record, i.e. one row of the sky-object catalog after forced
measurement: PSF flux, its uncertainty, the PSF effective area, the local
background level, the two failure flags, and finiteness of the float-valued
columns the filter inspects (a non-finite float is modelled by the
corresponding flag being `false`; the rational field then plays no role, since
the source only uses values of records that pass the filter). -/
structure PhotRecord where
  instFlux : ℚ
  instFluxErr : ℚ
  area : ℚ
  bgFlux : ℚ
  psfFluxFlag : Bool
  localBgFlag : Bool
  fluxFinite : Bool
  areaFinite : Bool
  bgFinite : Bool
  deriving DecidableEq, Repr

/-- The `good` filter (lines 125–126): flux flag clear, local-background flag
clear, and flux, area and background all finite. -/
def goodPred (r : PhotRecord) : Bool :=
  !r.psfFluxFlag && !r.localBgFlag && r.fluxFinite && r.areaFinite && r.bgFinite

/-- Boolean-mask selection, `array[good]` in numpy: keep the entries whose
mask bit is set. -/
def maskSelect {α : Type} : List α → List Bool → List α
  | a :: l, b :: m => if b then a :: maskSelect l m else maskSelect l m
  | _, _ => []

/-- `good.sum()`: number of records passing the filter. -/
def goodCount (catalog : List PhotRecord) : ℕ :=
  (catalog.filter goodPred).length

/-- `bgMedian` (line 133): `np.median((fluxes/area)[good])`. -/
def bgMedianOf (catalog : List PhotRecord) : ℚ :=
  npMedian (maskSelect
    (List.zipWith (· / ·) (catalog.map (·.instFlux)) (catalog.map (·.area)))
    (catalog.map goodPred))

/-- The background-subtracted fluxes `(fluxes - bg*area)[good]` (line 135). -/
def bgSubFluxes (catalog : List PhotRecord) : List ℚ :=
  maskSelect
    (List.zipWith (· - ·) (catalog.map (·.instFlux))
      (List.zipWith (· * ·) (catalog.map (·.bgFlux)) (catalog.map (·.area))))
    (catalog.map goodPred)

/-- `stdevMeas` (lines 135–136): `0.741` times the 25/75 interquartile range of
the background-subtracted fluxes. -/
def robustStdev (catalog : List PhotRecord) : ℚ :=
  (741 / 1000 : ℚ) * (npPercentile (bgSubFluxes catalog) 75 - npPercentile (bgSubFluxes catalog) 25)

/-- `medianError` (line 137): median of the flux uncertainties over the
filtered records. -/
def medianErrorOf (catalog : List PhotRecord) : ℚ :=
  npMedian (maskSelect (catalog.map (·.instFluxErr)) (catalog.map goodPred))

/-- The returned struct, with the warning the insufficient-samples branch logs
made observable (`warned`). -/
structure ThresholdResult where
  multiplicative : ℚ
  additive : ℚ
  warned : Bool
  deriving DecidableEq, Repr

/-- `calculateThreshold`, statistics part (lines 121–138): if fewer than
`minNumSources` records pass the filter, warn and return the identity
correction; otherwise return `medianError/stdevMeas` and the median of
flux/area. The division is unguarded, exactly as in the source. -/
def calculateThresholdEstimate (minNumSources : ℤ) (catalog : List PhotRecord) :
    ThresholdResult :=
  if (goodCount catalog : ℤ) < minNumSources then
    { multiplicative := 1, additive := 0, warned := true }
  else
    { multiplicative := medianErrorOf catalog / robustStdev catalog
      additive := bgMedianOf catalog
      warned := false }

/-- Modelled from the spec: the multiplicative term as the spec words it —
median flux uncertainty over the filtered records divided by `0.7413` times
the interquartile range of the background-subtracted fluxes over the filtered
records. -/
def specMultiplicative (catalog : List PhotRecord) : ℚ :=
  let filtered := catalog.filter goodPred
  let bgSub := filtered.map (fun r => r.instFlux - r.bgFlux * r.area)
  npMedian (filtered.map (·.instFluxErr)) /
    ((7413 / 10000 : ℚ) * (npPercentile bgSub 75 - npPercentile bgSub 25))

/-- Modelled from the spec: the additive term as the spec words it — median of
flux/area over the filtered records. -/
def specAdditive (catalog : List PhotRecord) : ℚ :=
  npMedian ((catalog.filter goodPred).map (fun r => r.instFlux / r.area))

/-- The multiplicative term with the constant the source actually uses,
`0.741`, over the spec-side filtered records (the amended form of the claim
about the threshold formula). -/
def specMultiplicativeAmended (catalog : List PhotRecord) : ℚ :=
  let filtered := catalog.filter goodPred
  let bgSub := filtered.map (fun r => r.instFlux - r.bgFlux * r.area)
  npMedian (filtered.map (·.instFluxErr)) /
    ((741 / 1000 : ℚ) * (npPercentile bgSub 75 - npPercentile bgSub 25))

/-! ## Sky-object catalog construction: `calculateThreshold`, lines 102–115 -/

/-- A peak of a footprint: its (floating-point) pixel position, `peak.getF()`
in the source. -/
structure Peak where
  x : ℚ
  y : ℚ
  deriving DecidableEq, Repr

/-- A sky-object footprint as delivered by the sky sampler: its list of
peaks. -/
structure Footprint where
  peaks : List Peak
  deriving DecidableEq, Repr

/-- The message of the failed assertion `assert len(peaks) == 1`
(line 113). -/
def assertMsg : String := "AssertionError: len(peaks) == 1"

/-- The catalog-building loop of `calculateThreshold` (lines 111–115): for each
source, assert that its footprint has exactly one peak, then set the centroid
to that peak. A footprint with zero or several peaks raises; processing is in
catalog order, so the first offending footprint raises. -/
def buildSkyCatalog : List Footprint → Except String (List (ℚ × ℚ))
  | [] => .ok []
  | fp :: rest =>
    if fp.peaks.length = 1 then
      match buildSkyCatalog rest with
      | .error e => .error e
      | .ok tail => .ok (((fp.peaks.headD ⟨0, 0⟩).x, (fp.peaks.headD ⟨0, 0⟩).y) :: tail)
    else .error assertMsg

/-! ## Orchestrator: `DynamicDetectionTask.detectFootprints`, lines 140–244

The collaborators the orchestrator calls — `clearMask`, `convolveImage`,
`applyThreshold`, `finalizeFootprints`, the sky sampler, the forced
measurement, the temporary wide-background context and the background
re-estimation — are code of the repository (or of its dependencies) that is
not under `src/`; per the spec (§6) they are external capabilities, so they
are abstracted as parameters of the embedding. The mask is a per-pixel bitset
(`List ℕ`), the image a list of pixel values (`List ℚ`). `R` is the opaque
payload produced by `applyThreshold` and threaded through the final pass. -/

/-- An exposure: image plane and mask plane, both mutated in place by the
source and hence threaded explicitly here. -/
structure Exposure where
  image : List ℚ
  mask : List ℕ
  deriving DecidableEq, Repr

/-- The configuration fields `detectFootprints` reads. -/
structure Config where
  prelimThresholdFactor : ℚ
  doBackgroundTweak : Bool
  minNumSources : ℤ
  thresholdValue : ℚ
  doTempLocalBackground : Bool
  reEstimateBackground : Bool
  deriving DecidableEq, Repr

/-- The external collaborators consumed by the orchestrator. Fallible ones
return `Except String`; `skyObjectsRun` is the sky sampler (deterministic in
its mask and seed, spec §4.1). -/
structure Collaborators (R : Type) where
  clearMask : List ℕ → Except String (List ℕ)
  convolveImage : Exposure → Bool → Except String (List ℚ × ℚ)
  applyThreshold : List ℚ → ℚ → Except String R
  finalizeFootprints : List ℕ → R → ℚ → ℚ → Except String (List ℕ)
  skyObjectsRun : List ℕ → ℤ → List Footprint
  measure : List (ℚ × ℚ) → Exposure → Except String (List PhotRecord)
  applyTempLocalBackground : Exposure → List ℚ → R → Except String R
  clearUnwantedResults : List ℕ → R → List ℕ
  twbEnter : Exposure → Exposure
  twbExit : Exposure → Exposure
  reEstimateBackgroundFn : Exposure → List ℚ → Except String (Exposure × List ℚ)

/-- Python `int()` truncation toward zero of a rational. -/
def intTrunc (q : ℚ) : ℤ :=
  if 0 ≤ q then ⌊q⌋ else ⌈q⌉

/-- `int(maskedImage.image.array.sum())`: the truncated sum of the pixel
values. -/
def imageSum (img : List ℚ) : ℤ :=
  intTrunc (img.foldl (· + ·) 0)

/-- The RNG seed (line 192): the exposure id when supplied, otherwise the
image sum, reduced modulo `2^31 - 1`. -/
def seedFor (expId : Option ℤ) (img : List ℚ) : ℤ :=
  (expId.getD (imageSum img)) % (2 ^ 31 - 1)

/-- Outcome of one `calculateThreshold` call (lines 102–138): the estimate or
the error it raised, together with the mask the sampler observed and the
footprints it produced. -/
structure CalcOut where
  outcome : Except String ThresholdResult
  maskAtSampling : List ℕ
  sampled : List Footprint

/-- `calculateThreshold` (lines 102–138): sample sky objects on the current
mask, build the catalog (asserting one peak per footprint), run forced
measurement, then the statistics of `calculateThresholdEstimate`. -/
def calculateThresholdRun {R : Type} (c : Collaborators R) (minNumSources : ℤ)
    (exposure : Exposure) (seed : ℤ) : CalcOut :=
  let fps := c.skyObjectsRun exposure.mask seed
  let outcome :=
    match buildSkyCatalog fps with
    | .error e => .error e
    | .ok cat =>
      match c.measure cat exposure with
      | .error e => .error e
      | .ok records => .ok (calculateThresholdEstimate minNumSources records)
  ⟨outcome, exposure.mask, fps⟩

/-- Observations of the `try` block of `detectFootprints` (lines 200–211):
its outcome (the pair `bgLevel, factor` of lines 207–208, or the error that
interrupted it), the mask state when the block exits (before the `finally`),
and what `calculateThreshold` observed, when reached. -/
structure PrelimOut where
  outcome : Except String (ℚ × ℚ)
  maskAtExit : List ℕ
  maskAtSampling : Option (List ℕ)
  sampled : Option (List Footprint)
  correction : Option ThresholdResult

/-- The body of the `try` block (lines 201–210): clear the mask, convolve,
apply the preliminary threshold, finalize footprints (setting DETECTED bits),
then calculate the threshold. Each step may raise; the mask mutations made so
far persist into the error exit, as in-place mutation does. -/
def prelimBlock {R : Type} (c : Collaborators R) (cfg : Config) (exposure : Exposure)
    (doSmooth : Bool) (seed : ℤ) : PrelimOut :=
  match c.clearMask exposure.mask with
  | .error e => ⟨.error e, exposure.mask, none, none, none⟩
  | .ok m1 =>
    match c.convolveImage { exposure with mask := m1 } doSmooth with
    | .error e => ⟨.error e, m1, none, none, none⟩
    | .ok (middle, sigma) =>
      match c.applyThreshold middle cfg.prelimThresholdFactor with
      | .error e => ⟨.error e, m1, none, none, none⟩
      | .ok tweakDetResults =>
        match c.finalizeFootprints m1 tweakDetResults sigma cfg.prelimThresholdFactor with
        | .error e => ⟨.error e, m1, none, none, none⟩
        | .ok m2 =>
          let calcRes := calculateThresholdRun c cfg.minNumSources { exposure with mask := m2 } seed
          match calcRes.outcome with
          | .error e => ⟨.error e, m2, some calcRes.maskAtSampling, some calcRes.sampled, none⟩
          | .ok est =>
            ⟨.ok (est.additive, est.multiplicative), m2,
              some calcRes.maskAtSampling, some calcRes.sampled, some est⟩

/-- `tweakBackground` (lines 246–272): subtract the constant level from every
pixel, build the constant background term, append it to the list when one is
supplied, and return the term in every case. -/
def tweakBackground (bgLevel : ℚ) (image : List ℚ) (bgList : Option (List ℚ)) :
    List ℚ × Option (List ℚ) × ℚ :=
  let newImage := image.map (· - bgLevel)
  let bg := bgLevel
  (newImage, bgList.map (· ++ [bg]), bg)

/-- What the final detection pass returns: the threshold-results payload, the
background list, the applied factor and the exposure state. -/
structure FinalOut (R : Type) where
  results : R
  background : List ℚ
  factor : ℚ
  exposure : Exposure

/-- The final detection pass (lines 219–240): optionally clear the mask, enter
the temporary wide-background context, convolve, apply the corrected
threshold, optionally apply the temporary local background, finalize
footprints, clear unwanted results, leave the context, and optionally
re-estimate the background. -/
def finalPass {R : Type} (c : Collaborators R) (cfg : Config) (s : Exposure)
    (doSmooth : Bool) (clearMaskFlag : Bool) (factor : ℚ) (background : List ℚ) :
    Except String (FinalOut R) := do
  let s1 ←
    if clearMaskFlag then do
      let m ← c.clearMask s.mask
      pure { s with mask := m }
    else pure s
  let sT := c.twbEnter s1
  let (middle, sigma) ← c.convolveImage sT doSmooth
  let results ← c.applyThreshold middle factor
  let results ←
    if cfg.doTempLocalBackground then c.applyTempLocalBackground sT middle results
    else pure results
  let m ← c.finalizeFootprints sT.mask results sigma factor
  let m2 := c.clearUnwantedResults m results
  let s2 := c.twbExit { sT with mask := m2 }
  let (s3, background2) ←
    if cfg.reEstimateBackground then c.reEstimateBackgroundFn s2 background
    else pure (s2, background)
  pure { results := results, background := background2, factor := factor, exposure := s3 }

/-- One full run of `detectFootprints`, with the observations the claims are
about: the mask at the start of the preliminary pass, the mask the sampler
observed, the sampled footprints, the threshold correction, the mask right
after the `finally` restoration (line 213, both exit paths), and the
background list and image around the background tweak. -/
structure DetectRun (R : Type) where
  seed : ℤ
  maskAtPrelimStart : List ℕ
  maskAtSampling : Option (List ℕ)
  sampled : Option (List Footprint)
  correction : Option ThresholdResult
  maskAfterFinally : List ℕ
  backgroundAfterTweak : Option (List ℚ)
  imageAtTweakStart : Option (List ℚ)
  imageAfterTweak : Option (List ℚ)
  result : Except String (FinalOut R)

/-- `detectFootprints` (lines 140–244): derive the seed, snapshot the mask,
run the preliminary block under `try/finally` (the mask is restored to the
snapshot on both exit paths, and an error then propagates to the caller),
apply the background tweak when configured, and run the final pass. -/
def detectFootprintsRun {R : Type} (c : Collaborators R) (cfg : Config) (exposure : Exposure)
    (doSmooth : Bool) (clearMaskFlag : Bool) (expId : Option ℤ) : DetectRun R :=
  let seed := seedFor expId exposure.image
  let originalMask := exposure.mask
  let p := prelimBlock c cfg exposure doSmooth seed
  match p.outcome with
  | .error e =>
    { seed := seed
      maskAtPrelimStart := exposure.mask
      maskAtSampling := p.maskAtSampling
      sampled := p.sampled
      correction := p.correction
      maskAfterFinally := originalMask
      backgroundAfterTweak := none
      imageAtTweakStart := none
      imageAfterTweak := none
      result := .error e }
  | .ok (bgLevel, factor) =>
    let sR : Exposure := { exposure with mask := originalMask }
    let tweaked :=
      if cfg.doBackgroundTweak then
        let t := tweakBackground bgLevel sR.image (some [])
        ({ sR with image := t.1 }, t.2.1.getD [])
      else (sR, ([] : List ℚ))
    { seed := seed
      maskAtPrelimStart := exposure.mask
      maskAtSampling := p.maskAtSampling
      sampled := p.sampled
      correction := p.correction
      maskAfterFinally := originalMask
      backgroundAfterTweak := some tweaked.2
      imageAtTweakStart := some sR.image
      imageAfterTweak := some tweaked.1.image
      result := finalPass c cfg tweaked.1 doSmooth clearMaskFlag factor tweaked.2 }

/-- The mask bits named DETECTED and DETECTED_NEGATIVE: bit 0 and bit 1 of
each pixel of the mask plane. -/
def detPlaneBits : ℕ := 3

/-- Projection of a mask to its DETECTED/DETECTED_NEGATIVE bits. -/
def detBits (m : List ℕ) : List ℕ := m.map (· &&& detPlaneBits)

/-! ## Concrete instances used to exercise the theorems -/

/-- A record that passes the `good` filter, with the given flux, uncertainty,
area and background. -/
def recGood (f e a b : ℚ) : PhotRecord :=
  ⟨f, e, a, b, false, false, true, true, true⟩

/-- Four good records with fluxes 0..3, unit area, zero background, unit
uncertainty. -/
def catC1 : List PhotRecord :=
  [recGood 0 1 1 0, recGood 1 1 1 0, recGood 2 1 1 0, recGood 3 1 1 0]

/-- Five good records (fewer than the default `minNumSources = 10`). -/
def catC2 : List PhotRecord :=
  [recGood 5 2 1 0, recGood 5 2 1 0, recGood 5 2 1 0, recGood 5 2 1 0, recGood 5 2 1 0]

/-- Ten identical good records: a degenerate sample with zero interquartile
range. -/
def catC3 : List PhotRecord := List.replicate 10 (recGood 5 2 1 0)

/-- A single good record with flux 7 over unit area. -/
def rec7 : PhotRecord := recGood 7 1 1 0

/-- Simple collaborators: mask-preserving clear, trivial convolution and
thresholding, a finalize step that marks every pixel (setting the DETECTED
bit of a clear pixel), an empty sky sample and empty measurements. -/
def collabBase : Collaborators Unit where
  clearMask := fun m => .ok m
  convolveImage := fun _ _ => .ok ([], 1)
  applyThreshold := fun _ _ => .ok ()
  finalizeFootprints := fun m _ _ _ => .ok (m.map (· + 1))
  skyObjectsRun := fun _ _ => []
  measure := fun _ _ => .ok []
  applyTempLocalBackground := fun _ _ r => .ok r
  clearUnwantedResults := fun m _ => m
  twbEnter := id
  twbExit := id
  reEstimateBackgroundFn := fun s b => .ok (s, b)

/-- Default-like configuration: preliminary factor 1/2, background tweak on,
ten required sources. -/
def cfgA : Config := ⟨1 / 2, true, 10, 5, false, false⟩

/-- A one-pixel exposure with zero image value and clear mask. -/
def expo0 : Exposure := ⟨[0], [0]⟩

/-- The failure message of the erroring collaborators below. -/
def boomMsg : String := "simulated clearMask failure"

/-- Collaborators whose mask clearing fails, interrupting the preliminary
phase at its first step. -/
def collabErr : Collaborators Unit :=
  { collabBase with clearMask := fun _ => .error boomMsg }

/-- Collaborators whose forced measurement yields one good record with
flux 7. -/
def collabC6 : Collaborators Unit :=
  { collabBase with measure := fun _ _ => .ok [rec7] }

/-- Configuration with the background tweak disabled and a single required
source. -/
def cfgTweakOff : Config := { cfgA with doBackgroundTweak := false, minNumSources := 1 }

/-- Configuration with the background tweak enabled and a single required
source. -/
def cfgTweakOn : Config := { cfgA with minNumSources := 1 }

/-- A footprint with no peaks at all. -/
def fpNoPeaks : Footprint := ⟨[]⟩

/-- Collaborators whose sky sampler yields one footprint with zero peaks. -/
def collabC9 : Collaborators Unit :=
  { collabBase with skyObjectsRun := fun _ _ => [fpNoPeaks] }

/-- A field name ending in `_fluxSigma` whose prefix `a` is itself drawn from
the stripped character set. -/
def sigmaName : String := "a_fluxSigma"

/-- A two-column catalog: a flux column with unrecognised units `mJy` (fails
the units check) and a flux column with units `Jy` (remapped). -/
def catalogW : List RField :=
  [⟨"x_flux", "mJy", [2]⟩, ⟨"y_flux", "Jy", [3]⟩]

/-- The written output for `catalogW`: both columns scaled by `1e9`, only the
second with updated units. -/
def outW : List RField :=
  [⟨"x_flux", "mJy", [2000000000]⟩, ⟨"y_flux", "nJy", [3000000000]⟩]

/-! ## Helper lemmas -/

theorem scaleField_name (f : RField) : (scaleField f).name = f.name := by
  unfold scaleField; split <;> rfl

theorem scaleField_units (f : RField) : (scaleField f).units = f.units := by
  unfold scaleField; split <;> rfl

theorem mapField_values (f : RField) : (mapField f).values = f.values := by
  unfold mapField; split <;> rfl

theorem mapField_of_not_flux (f : RField) (h : is_flux_field f.name f.units = false) :
    mapField f = f := by
  unfold mapField; rw [h]; simp

theorem maskSelect_map {R α : Type} (f : R → α) (p : R → Bool) (l : List R) :
    maskSelect (l.map f) (l.map p) = (l.filter p).map f := by
  induction l with
  | nil => rfl
  | cons a t ih => by_cases h : p a <;> simp [maskSelect, List.filter_cons, h, ih]

theorem zipWith_map_pair {R α β γ : Type} (g : α → β → γ) (f₁ : R → α) (f₂ : R → β)
    (l : List R) :
    List.zipWith g (l.map f₁) (l.map f₂) = l.map (fun r => g (f₁ r) (f₂ r)) := by
  induction l with
  | nil => rfl
  | cons a t ih => simp [ih]

theorem bgSubFluxes_eq (catalog : List PhotRecord) :
    bgSubFluxes catalog =
      (catalog.filter goodPred).map (fun r => r.instFlux - r.bgFlux * r.area) := by
  unfold bgSubFluxes
  rw [zipWith_map_pair, zipWith_map_pair, maskSelect_map]

theorem bgMedianOf_eq (catalog : List PhotRecord) : bgMedianOf catalog = specAdditive catalog := by
  unfold bgMedianOf specAdditive
  rw [zipWith_map_pair, maskSelect_map]

theorem medianErrorOf_eq (catalog : List PhotRecord) :
    medianErrorOf catalog = npMedian ((catalog.filter goodPred).map (·.instFluxErr)) := by
  unfold medianErrorOf
  rw [maskSelect_map]

/-! ## Claim theorems -/

/-- C8: the conversion utility renames a `_fluxSigma` field by stripping the
literal character set `_fluxSigma` from both ends, not by replacing the
trailing `_fluxSigma` token, so for some names ending in `_fluxSigma` the
produced name differs from the exact trailing-suffix replacement. -/
theorem c8_strip_is_not_suffix_replace :
    ∃ name : String, strEndsWith name fluxSigmaSuffix = true ∧
      renameFluxSigma name ≠ exactSuffixReplace name :=
  ⟨sigmaName, by decide, by decide⟩

/-- C10: whenever the write phase runs (at least one flux field was remapped),
every output column whose name ends in `_flux` or `_fluxErr` has its values
multiplied by `1e9`; a column that failed the units check keeps its name and
units (so a `_flux` column with unrecognised units is scaled while its units
metadata is left unchanged). -/
theorem c10_write_scales_flux_columns :
    ∀ (catalog out : List RField), processOneWrite catalog = some out →
      out.length = catalog.length ∧
      ∀ i (hi : i < catalog.length) (ho : i < out.length),
        ((strEndsWith out[i].name fluxSuffix || strEndsWith out[i].name fluxErrSuffix) = true →
          out[i].values = catalog[i].values.map (· * 1000000000)) ∧
        (is_flux_field catalog[i].name catalog[i].units = false →
          out[i].name = catalog[i].name ∧ out[i].units = catalog[i].units) := by
  intro catalog out h
  unfold processOneWrite at h
  split at h
  · exact absurd h (by simp)
  · have hout : out = (catalog.map mapField).map scaleField := by
      injection h with h
      exact h.symm
    subst hout
    refine ⟨by simp, ?_⟩
    intro i hi ho
    have hgo : ((catalog.map mapField).map scaleField)[i] = scaleField (mapField catalog[i]) := by
      simp [List.getElem_map]
    constructor
    · intro hEnds
      rw [hgo] at hEnds ⊢
      rw [scaleField_name] at hEnds
      simp only [scaleField, hEnds, if_true]
      rw [mapField_values]
    · intro hNot
      rw [hgo, mapField_of_not_flux _ hNot]
      exact ⟨scaleField_name _, scaleField_units _⟩

/-- Witness for C10: on the concrete two-column catalog, the write phase fires,
and the `mJy` column (which failed the units check) is scaled while its name
and units stay unchanged. -/
theorem c10_write_scales_flux_columns_witness :
    processOneWrite catalogW = some outW ∧
    is_flux_field (catalogW.get ⟨0, by decide⟩).name (catalogW.get ⟨0, by decide⟩).units = false ∧
    (outW.get ⟨0, by decide⟩).values = (catalogW.get ⟨0, by decide⟩).values.map (· * 1000000000) ∧
    (outW.get ⟨0, by decide⟩).units = (catalogW.get ⟨0, by decide⟩).units := by
  have h : processOneWrite catalogW = some outW := by
    have e1 : is_flux_field "x_flux" "mJy" = false := by decide
    have e2 : is_flux_field "y_flux" "Jy" = true := by decide
    have e3 : strEndsWith "x_flux" fluxSuffix = true := by decide
    have e4 : strEndsWith "y_flux" fluxSigmaSuffix = false := by decide
    have e5 : strEndsWith "y_flux" fluxSuffix = true := by decide
    simp [processOneWrite, mappedFluxes, List.filter, mapField, scaleField, catalogW, outW,
      e1, e2, e3, e4, e5]
    norm_num
  have key := c10_write_scales_flux_columns catalogW outW h
  have h0 : (0 : ℕ) < catalogW.length := by decide
  have h1 : (0 : ℕ) < outW.length := by decide
  have hpair := key.2 0 h0 h1
  have hEnds : (strEndsWith (outW.get ⟨0, by decide⟩).name fluxSuffix ||
      strEndsWith (outW.get ⟨0, by decide⟩).name fluxErrSuffix) = true := by decide
  have hNot : is_flux_field (catalogW.get ⟨0, by decide⟩).name
      (catalogW.get ⟨0, by decide⟩).units = false := by decide
  refine ⟨h, ?_, ?_, ?_⟩
  · simpa [List.get_eq_getElem] using hNot
  · simpa [List.get_eq_getElem] using hpair.1 (by simpa [List.get_eq_getElem] using hEnds)
  · simpa [List.get_eq_getElem] using
      (hpair.2 (by simpa [List.get_eq_getElem] using hNot)).2

/-- Counterexample to C1 as stated: on a four-record catalog with at least
`minNumSources = 1` good records, the returned multiplicative factor differs
from the value computed with the constant `0.7413` the claim (and spec)
prescribe — the source uses `0.741`. -/
theorem c1_constant_counterexample :
    (1 : ℤ) ≤ (goodCount catC1 : ℤ) ∧
    (calculateThresholdEstimate 1 catC1).multiplicative ≠ specMultiplicative catC1 := by
  constructor
  · decide
  · norm_num [calculateThresholdEstimate, specMultiplicative, goodCount, goodPred, medianErrorOf,
      robustStdev, bgMedianOf, bgSubFluxes, maskSelect, npMedian, npPercentile, sortQ, insertQ,
      Int.toNat, catC1, recGood, List.filter, List.zipWith]

/-- C1 (amended): with at least `minNumSources` filtered records, the returned
correction has additive term the median of flux/area over the filtered records
and multiplicative term the median flux uncertainty divided by `0.741` (not
`0.7413`) times the interquartile range of the background-subtracted
fluxes. -/
theorem c1_threshold_formula (minNumSources : ℤ) (catalog : List PhotRecord)
    (h : minNumSources ≤ (goodCount catalog : ℤ)) :
    calculateThresholdEstimate minNumSources catalog =
      ⟨specMultiplicativeAmended catalog, specAdditive catalog, false⟩ := by
  unfold calculateThresholdEstimate
  rw [if_neg (not_lt.mpr h)]
  have h1 : medianErrorOf catalog / robustStdev catalog = specMultiplicativeAmended catalog := by
    rw [medianErrorOf_eq, robustStdev, bgSubFluxes_eq]
    rfl
  rw [h1, bgMedianOf_eq]

/-- Witness for C1 (amended) at the four-record catalog with
`minNumSources = 1`. -/
theorem c1_threshold_formula_witness :
    (1 : ℤ) ≤ (goodCount catC1 : ℤ) ∧
    calculateThresholdEstimate 1 catC1 =
      ⟨specMultiplicativeAmended catC1, specAdditive catC1, false⟩ :=
  ⟨by decide, c1_threshold_formula 1 catC1 (by decide)⟩

/-- C2: whenever fewer than `minNumSources` records pass the filter — in
particular for an empty record set or when every record is flagged — the
estimator warns and returns exactly the identity correction
`{multiplicative = 1, additive = 0}` (and, being total, does not raise). -/
theorem c2_insufficient_identity (minNumSources : ℤ) (catalog : List PhotRecord)
    (h : (goodCount catalog : ℤ) < minNumSources) :
    calculateThresholdEstimate minNumSources catalog =
      { multiplicative := 1, additive := 0, warned := true } := by
  unfold calculateThresholdEstimate
  rw [if_pos h]

/-- Witness for C2: five usable records against `minNumSources = 10` yield the
identity correction with a warning. -/
theorem c2_insufficient_identity_witness :
    ((goodCount catC2 : ℤ) < 10) ∧
    calculateThresholdEstimate 10 catC2 =
      { multiplicative := 1, additive := 0, warned := true } :=
  ⟨by decide, c2_insufficient_identity 10 catC2 (by decide)⟩

/-- C3 (the code against the claim): on ten identical good records the robust
standard deviation is zero, yet the estimator takes its normal branch — no
warning, no failure — and divides the median error by that zero spread, so the
degenerate statistics are not surfaced as a detectable abnormal condition. -/
theorem c3_degenerate_unguarded :
    (10 : ℤ) ≤ (goodCount catC3 : ℤ) ∧ robustStdev catC3 = 0 ∧
    (calculateThresholdEstimate 10 catC3).warned = false := by
  refine ⟨by decide, ?_⟩
  norm_num [calculateThresholdEstimate, goodCount, goodPred, robustStdev, bgSubFluxes,
    maskSelect, npPercentile, sortQ, insertQ, Int.toNat, catC3, recGood, List.replicate,
    List.filter, List.zipWith]

theorem buildSkyCatalog_error_of_bad :
    ∀ fps : List Footprint, (∃ fp ∈ fps, fp.peaks.length ≠ 1) →
      buildSkyCatalog fps = .error assertMsg := by
  intro fps
  induction fps with
  | nil => rintro ⟨fp, hm, _⟩; simp at hm
  | cons a t ih =>
    rintro ⟨fp, hm, hlen⟩
    rw [List.mem_cons] at hm
    rcases hm with he | ht
    · subst he
      unfold buildSkyCatalog
      rw [if_neg hlen]
    · by_cases ha : a.peaks.length = 1
      · have hrec := ih ⟨fp, ht, hlen⟩
        simp [buildSkyCatalog, ha, hrec]
      · simp [buildSkyCatalog, ha]

/-- C9: whenever the sky sampler yields any footprint with zero or several
peaks, `calculateThreshold` fails with the assertion error of line 113 instead
of measuring that position. -/
theorem c9_single_peak_assertion {R : Type} (c : Collaborators R) (minNumSources : ℤ)
    (e : Exposure) (seed : ℤ)
    (h : ∃ fp ∈ c.skyObjectsRun e.mask seed, fp.peaks.length ≠ 1) :
    (calculateThresholdRun c minNumSources e seed).outcome = .error assertMsg := by
  unfold calculateThresholdRun
  simp [buildSkyCatalog_error_of_bad _ h]

/-- Witness for C9: a sampler that yields one zero-peak footprint makes
`calculateThreshold` fail with the assertion error. -/
theorem c9_single_peak_assertion_witness :
    (∃ fp ∈ collabC9.skyObjectsRun expo0.mask 1, fp.peaks.length ≠ 1) ∧
    (calculateThresholdRun collabC9 10 expo0 1).outcome = .error assertMsg :=
  ⟨⟨fpNoPeaks, by decide, by decide⟩,
    c9_single_peak_assertion collabC9 10 expo0 1 ⟨fpNoPeaks, by decide, by decide⟩⟩

theorem detectRun_seed {R : Type} (c : Collaborators R) (cfg : Config) (e : Exposure)
    (ds cm : Bool) (expId : Option ℤ) :
    (detectFootprintsRun c cfg e ds cm expId).seed = seedFor expId e.image := by
  unfold detectFootprintsRun
  rcases h : (prelimBlock c cfg e ds (seedFor expId e.image)).outcome with err | ⟨bg, f⟩ <;>
    simp [h]

theorem detectRun_maskAtPrelimStart {R : Type} (c : Collaborators R) (cfg : Config)
    (e : Exposure) (ds cm : Bool) (expId : Option ℤ) :
    (detectFootprintsRun c cfg e ds cm expId).maskAtPrelimStart = e.mask := by
  unfold detectFootprintsRun
  rcases h : (prelimBlock c cfg e ds (seedFor expId e.image)).outcome with err | ⟨bg, f⟩ <;>
    simp [h]

theorem detectRun_maskAfterFinally {R : Type} (c : Collaborators R) (cfg : Config)
    (e : Exposure) (ds cm : Bool) (expId : Option ℤ) :
    (detectFootprintsRun c cfg e ds cm expId).maskAfterFinally = e.mask := by
  unfold detectFootprintsRun
  rcases h : (prelimBlock c cfg e ds (seedFor expId e.image)).outcome with err | ⟨bg, f⟩ <;>
    simp [h]

theorem detectRun_maskAtSampling {R : Type} (c : Collaborators R) (cfg : Config)
    (e : Exposure) (ds cm : Bool) (expId : Option ℤ) :
    (detectFootprintsRun c cfg e ds cm expId).maskAtSampling =
      (prelimBlock c cfg e ds (seedFor expId e.image)).maskAtSampling := by
  unfold detectFootprintsRun
  rcases h : (prelimBlock c cfg e ds (seedFor expId e.image)).outcome with err | ⟨bg, f⟩ <;>
    simp [h]

theorem detectRun_sampled {R : Type} (c : Collaborators R) (cfg : Config)
    (e : Exposure) (ds cm : Bool) (expId : Option ℤ) :
    (detectFootprintsRun c cfg e ds cm expId).sampled =
      (prelimBlock c cfg e ds (seedFor expId e.image)).sampled := by
  unfold detectFootprintsRun
  rcases h : (prelimBlock c cfg e ds (seedFor expId e.image)).outcome with err | ⟨bg, f⟩ <;>
    simp [h]

theorem detectRun_correction {R : Type} (c : Collaborators R) (cfg : Config)
    (e : Exposure) (ds cm : Bool) (expId : Option ℤ) :
    (detectFootprintsRun c cfg e ds cm expId).correction =
      (prelimBlock c cfg e ds (seedFor expId e.image)).correction := by
  unfold detectFootprintsRun
  rcases h : (prelimBlock c cfg e ds (seedFor expId e.image)).outcome with err | ⟨bg, f⟩ <;>
    simp [h]

theorem prelimBlock_sampling_mask {R : Type} (c : Collaborators R) (cfg : Config)
    (e : Exposure) (ds : Bool) (seed : ℤ) (m1 : List ℕ) (mid : List ℚ) (sig : ℚ) (tr : R)
    (m2 : List ℕ)
    (h1 : c.clearMask e.mask = .ok m1)
    (h2 : c.convolveImage { e with mask := m1 } ds = .ok (mid, sig))
    (h3 : c.applyThreshold mid cfg.prelimThresholdFactor = .ok tr)
    (h4 : c.finalizeFootprints m1 tr sig cfg.prelimThresholdFactor = .ok m2) :
    (prelimBlock c cfg e ds seed).maskAtSampling = some m2 ∧
    (prelimBlock c cfg e ds seed).sampled = some (c.skyObjectsRun m2 seed) := by
  unfold prelimBlock
  rcases hb : buildSkyCatalog (c.skyObjectsRun m2 seed) with err | cat
  · simp [h1, h2, h3, h4, calculateThresholdRun, hb]
  · rcases hm : c.measure cat { e with mask := m2 } with err2 | recs <;>
      simp [h1, h2, h3, h4, calculateThresholdRun, hb, hm]

theorem prelimBlock_ok {R : Type} (c : Collaborators R) (cfg : Config) (e : Exposure)
    (ds : Bool) (seed : ℤ) (m1 : List ℕ) (mid : List ℚ) (sig : ℚ) (tr : R) (m2 : List ℕ)
    (cat : List (ℚ × ℚ)) (records : List PhotRecord)
    (h1 : c.clearMask e.mask = .ok m1)
    (h2 : c.convolveImage { e with mask := m1 } ds = .ok (mid, sig))
    (h3 : c.applyThreshold mid cfg.prelimThresholdFactor = .ok tr)
    (h4 : c.finalizeFootprints m1 tr sig cfg.prelimThresholdFactor = .ok m2)
    (h5 : buildSkyCatalog (c.skyObjectsRun m2 seed) = .ok cat)
    (h6 : c.measure cat { e with mask := m2 } = .ok records) :
    prelimBlock c cfg e ds seed =
      ⟨.ok ((calculateThresholdEstimate cfg.minNumSources records).additive,
            (calculateThresholdEstimate cfg.minNumSources records).multiplicative),
        m2, some m2, some (c.skyObjectsRun m2 seed),
        some (calculateThresholdEstimate cfg.minNumSources records)⟩ := by
  unfold prelimBlock
  simp [h1, h2, h3, h4, calculateThresholdRun, h5, h6]

/-- Counterexample to C4 as stated: on a concrete run whose preliminary
finalize step marks a pixel as DETECTED, the DETECTED/DETECTED_NEGATIVE bits
the sampler observes at the start of Sampling differ from those at the start
of PreliminaryDetect — the mask is not restored before Sampling. -/
theorem c4_mask_counterexample :
    ¬ ((detectFootprintsRun collabBase cfgA expo0 true true (some 1)).maskAtSampling.map detBits =
        some (detBits
          (detectFootprintsRun collabBase cfgA expo0 true true (some 1)).maskAtPrelimStart)) := by
  have hs := prelimBlock_sampling_mask collabBase cfgA expo0 true
    (seedFor (some 1) expo0.image) [0] [] 1 () [1] rfl rfl rfl rfl
  rw [detectRun_maskAtSampling, detectRun_maskAtPrelimStart, hs.1]
  decide

/-- C4 (amended): whenever the preliminary steps succeed, the mask the sampler
observes at the start of Sampling is the mask produced by the preliminary
finalize step — it carries the preliminary DETECTED bits, by design, so that
sky objects avoid contaminated pixels — and the snapshot is restored only
after threshold calculation, before the background tweak and the final
pass. -/
theorem c4_sampling_observes_prelim_mask {R : Type} (c : Collaborators R) (cfg : Config)
    (e : Exposure) (ds cm : Bool) (expId : Option ℤ) (m1 : List ℕ) (mid : List ℚ) (sig : ℚ)
    (tr : R) (m2 : List ℕ)
    (h1 : c.clearMask e.mask = .ok m1)
    (h2 : c.convolveImage { e with mask := m1 } ds = .ok (mid, sig))
    (h3 : c.applyThreshold mid cfg.prelimThresholdFactor = .ok tr)
    (h4 : c.finalizeFootprints m1 tr sig cfg.prelimThresholdFactor = .ok m2) :
    (detectFootprintsRun c cfg e ds cm expId).maskAtSampling = some m2 ∧
    (detectFootprintsRun c cfg e ds cm expId).sampled =
      some (c.skyObjectsRun m2 (seedFor expId e.image)) ∧
    (detectFootprintsRun c cfg e ds cm expId).maskAfterFinally = e.mask := by
  have hs := prelimBlock_sampling_mask c cfg e ds (seedFor expId e.image) m1 mid sig tr m2
    h1 h2 h3 h4
  refine ⟨?_, ?_, detectRun_maskAfterFinally c cfg e ds cm expId⟩
  · rw [detectRun_maskAtSampling]
    exact hs.1
  · rw [detectRun_sampled]
    exact hs.2

/-- Witness for C4 (amended): the concrete run observes the marked mask `[1]`
at Sampling while the snapshot `[0]` is restored for the later phases. -/
theorem c4_sampling_observes_prelim_mask_witness :
    collabBase.clearMask expo0.mask = .ok [0] ∧
    collabBase.finalizeFootprints [0] () 1 cfgA.prelimThresholdFactor = .ok [1] ∧
    (detectFootprintsRun collabBase cfgA expo0 true true (some 1)).maskAtSampling = some [1] ∧
    (detectFootprintsRun collabBase cfgA expo0 true true (some 1)).maskAfterFinally =
      expo0.mask := by
  have key := c4_sampling_observes_prelim_mask collabBase cfgA expo0 true true (some 1)
    [0] [] 1 () [1] rfl rfl rfl rfl
  exact ⟨rfl, rfl, key.1, key.2.2⟩

/-- C5: the mask is restored to the pre-preliminary snapshot on every exit
path of the preliminary block — an error raised by any preliminary step
propagates to the caller only after restoration and without any later phase
running, and on normal completion the background tweak and the final pass
start from the restored mask. -/
theorem c5_mask_restored_every_exit {R : Type} (c : Collaborators R) (cfg : Config)
    (e : Exposure) (ds cm : Bool) (expId : Option ℤ) :
    (detectFootprintsRun c cfg e ds cm expId).maskAfterFinally = e.mask ∧
    (∀ err, (prelimBlock c cfg e ds (seedFor expId e.image)).outcome = .error err →
      (detectFootprintsRun c cfg e ds cm expId).result = .error err ∧
      (detectFootprintsRun c cfg e ds cm expId).backgroundAfterTweak = none) ∧
    (∀ bgLevel factor,
      (prelimBlock c cfg e ds (seedFor expId e.image)).outcome = .ok (bgLevel, factor) →
      (detectFootprintsRun c cfg e ds cm expId).result =
        finalPass c cfg
          ⟨if cfg.doBackgroundTweak then e.image.map (· - bgLevel) else e.image, e.mask⟩
          ds cm factor (if cfg.doBackgroundTweak then [bgLevel] else [])) := by
  refine ⟨detectRun_maskAfterFinally c cfg e ds cm expId, ?_, ?_⟩
  · intro err h
    unfold detectFootprintsRun
    simp [h]
  · intro bgLevel factor h
    unfold detectFootprintsRun
    by_cases hbt : cfg.doBackgroundTweak <;> simp [h, hbt, tweakBackground]

/-- Witness for C5: when mask clearing itself fails, the error propagates, the
mask is restored, and no background tweak happens. -/
theorem c5_mask_restored_every_exit_witness :
    (prelimBlock collabErr cfgA expo0 true (seedFor (some 1) expo0.image)).outcome =
      .error boomMsg ∧
    (detectFootprintsRun collabErr cfgA expo0 true true (some 1)).maskAfterFinally = expo0.mask ∧
    (detectFootprintsRun collabErr cfgA expo0 true true (some 1)).result = .error boomMsg ∧
    (detectFootprintsRun collabErr cfgA expo0 true true (some 1)).backgroundAfterTweak = none := by
  have hout : (prelimBlock collabErr cfgA expo0 true (seedFor (some 1) expo0.image)).outcome =
      .error boomMsg := rfl
  have key := c5_mask_restored_every_exit collabErr cfgA expo0 true true (some 1)
  exact ⟨hout, key.1, (key.2.1 boomMsg hout).1, (key.2.1 boomMsg hout).2⟩

/-- Counterexample to C6 as stated: a completed run with the background tweak
disabled computes an additive correction of 7, yet the background list
records nothing — the offset is appended only when the tweak is enabled, not
regardless. -/
theorem c6_offset_not_recorded_counterexample :
    (detectFootprintsRun collabC6 cfgTweakOff expo0 true true
        (some 1)).correction.map (·.additive) = some 7 ∧
    (detectFootprintsRun collabC6 cfgTweakOff expo0 true true
        (some 1)).backgroundAfterTweak = some [] := by
  have hp := prelimBlock_ok collabC6 cfgTweakOff expo0 true (seedFor (some 1) expo0.image)
    [0] [] 1 () [1] [] [rec7] rfl rfl rfl rfl rfl rfl
  constructor
  · rw [detectRun_correction, hp]
    have : (calculateThresholdEstimate cfgTweakOff.minNumSources [rec7]).additive = 7 := by
      norm_num [calculateThresholdEstimate, cfgTweakOff, cfgA, goodCount, goodPred, bgMedianOf,
        maskSelect, npMedian, sortQ, insertQ, rec7, recGood, List.filter, List.zipWith]
    simp [this]
  · simp only [detectFootprintsRun]
    rw [hp]
    simp [cfgTweakOff, cfgA]

/-- C6 (amended): on a successful run, the additive correction is subtracted
from the image pixels only when `doBackgroundTweak` is enabled, and — contrary
to the claim — the offset is appended to the background list only in that same
case; with the tweak disabled the background list stays empty and the image
untouched. -/
theorem c6_background_tweak_behaviour {R : Type} (c : Collaborators R) (cfg : Config)
    (e : Exposure) (ds cm : Bool) (expId : Option ℤ) (m1 : List ℕ) (mid : List ℚ) (sig : ℚ)
    (tr : R) (m2 : List ℕ) (cat : List (ℚ × ℚ)) (records : List PhotRecord)
    (h1 : c.clearMask e.mask = .ok m1)
    (h2 : c.convolveImage { e with mask := m1 } ds = .ok (mid, sig))
    (h3 : c.applyThreshold mid cfg.prelimThresholdFactor = .ok tr)
    (h4 : c.finalizeFootprints m1 tr sig cfg.prelimThresholdFactor = .ok m2)
    (h5 : buildSkyCatalog (c.skyObjectsRun m2 (seedFor expId e.image)) = .ok cat)
    (h6 : c.measure cat { e with mask := m2 } = .ok records) :
    (detectFootprintsRun c cfg e ds cm expId).correction =
      some (calculateThresholdEstimate cfg.minNumSources records) ∧
    (detectFootprintsRun c cfg e ds cm expId).imageAtTweakStart = some e.image ∧
    (detectFootprintsRun c cfg e ds cm expId).backgroundAfterTweak =
      some (if cfg.doBackgroundTweak then
        [(calculateThresholdEstimate cfg.minNumSources records).additive] else []) ∧
    (detectFootprintsRun c cfg e ds cm expId).imageAfterTweak =
      some (if cfg.doBackgroundTweak then
        e.image.map (· - (calculateThresholdEstimate cfg.minNumSources records).additive)
        else e.image) := by
  have hp := prelimBlock_ok c cfg e ds (seedFor expId e.image) m1 mid sig tr m2 cat records
    h1 h2 h3 h4 h5 h6
  simp only [detectFootprintsRun]
  rw [hp]
  by_cases hbt : cfg.doBackgroundTweak <;> simp [hbt, tweakBackground]

/-- Witness for C6 (amended): with the tweak enabled, the single-record run
appends exactly the additive correction to the background list and subtracts
it from the image. -/
theorem c6_background_tweak_behaviour_witness :
    collabC6.measure [] { expo0 with mask := [1] } = .ok [rec7] ∧
    (detectFootprintsRun collabC6 cfgTweakOn expo0 true true (some 1)).backgroundAfterTweak =
      some [(calculateThresholdEstimate cfgTweakOn.minNumSources [rec7]).additive] ∧
    (detectFootprintsRun collabC6 cfgTweakOn expo0 true true (some 1)).imageAfterTweak =
      some (expo0.image.map
        (· - (calculateThresholdEstimate cfgTweakOn.minNumSources [rec7]).additive)) := by
  have key := c6_background_tweak_behaviour collabC6 cfgTweakOn expo0 true true (some 1)
    [0] [] 1 () [1] [] [rec7] rfl rfl rfl rfl rfl rfl
  have hbt : cfgTweakOn.doBackgroundTweak = true := rfl
  refine ⟨rfl, ?_, ?_⟩
  · rw [key.2.2.1, hbt]
    simp
  · rw [key.2.2.2, hbt]
    simp

/-- C7: the seed used by `detectFootprints` is a deterministic function of its
inputs alone — the exposure identifier when supplied, otherwise the truncated
image sum, in both cases reduced modulo `2^31 - 1` — and two runs on equal
exposures with equal identifiers produce identical sampled positions and
identical threshold corrections. -/
theorem c7_seed_and_determinism {R : Type} (c : Collaborators R) (cfg : Config) (e : Exposure)
    (ds cm : Bool) :
    (∀ i : ℤ, (detectFootprintsRun c cfg e ds cm (some i)).seed = i % (2 ^ 31 - 1)) ∧
    (detectFootprintsRun c cfg e ds cm none).seed = imageSum e.image % (2 ^ 31 - 1) ∧
    (∀ (e2 : Exposure) (expId expId2 : Option ℤ), e = e2 → expId = expId2 →
      (detectFootprintsRun c cfg e ds cm expId).sampled =
        (detectFootprintsRun c cfg e2 ds cm expId2).sampled ∧
      (detectFootprintsRun c cfg e ds cm expId).correction =
        (detectFootprintsRun c cfg e2 ds cm expId2).correction) := by
  refine ⟨?_, ?_, ?_⟩
  · intro i
    rw [detectRun_seed]
    simp [seedFor]
  · rw [detectRun_seed]
    simp [seedFor]
  · intro e2 expId expId2 he hi
    subst he
    subst hi
    exact ⟨rfl, rfl⟩

/-- Witness for C7: the run with identifier 5 uses seed `5 % (2^31 - 1)`, and
a repeat run with the same inputs samples the same positions. -/
theorem c7_seed_and_determinism_witness :
    (detectFootprintsRun collabBase cfgA expo0 true true (some 5)).seed = 5 % (2 ^ 31 - 1) ∧
    (detectFootprintsRun collabBase cfgA expo0 true true (some 5)).sampled =
      (detectFootprintsRun collabBase cfgA expo0 true true (some 5)).sampled := by
  have key := c7_seed_and_determinism collabBase cfgA expo0 true true
  exact ⟨key.1 5, (key.2.2 expo0 (some 5) (some 5) rfl rfl).1⟩

end MeasAlgorithms
